import Mathlib

/-!
Verification of the CETAS refresh notebook
(`Synapse_Materialize_Query_CETAS_And_Generate_Stats.ipynb`).

The notebook is glue code around three external systems: a serverless SQL
engine (catalog of external tables, columns and statistics objects), an ADLS
object store, and a JDBC connection provider.  We embed the durable external
state (catalog + storage) as an explicit value, and the behaviour of the
external systems that is not determined by that state (failures of network
calls, the schema the CETAS result gets, where its files land) as an
environment oracle.  Each Python function of the notebook becomes a Lean
function from environment, configuration and state to an outcome, a next
state and a trace of observable events (executed statements, log lines,
resource acquisition and release).
-/

namespace CetasRefresh

/-- A statistics object of the catalog: a row of sys.stats, together with the
sys.stats_columns rows that belong to it (the columns it covers). -/
structure Stat where
  name : String
  cols : List String
deriving Repr, DecidableEq

/-- An external table of the catalog: a row of sys.objects / sys.external_tables
(`name` is the unqualified name) with its sys.columns rows in declaration order
and its statistics objects. -/
structure ExtTable where
  schemaName : String
  name : String
  columns : List String
  stats : List Stat
deriving Repr, DecidableEq

/-- Durable external state: the engine catalog and the object store
(a finite map from path to stored content). -/
structure SynState where
  tables : List ExtTable
  storage : List (String × String)
deriving Repr, DecidableEq

/-- The CONFIG dictionary of the notebook. -/
structure Config where
  external_table : String
  workspace_name : String
  database_name : String
  materialized_table_output_path : String
deriving Repr, DecidableEq

/-- The module-level CONFIG literal of the notebook. -/
def CONFIG : Config :=
  { external_table := ""
    workspace_name := ""
    database_name := ""
    materialized_table_output_path :=
      "abfss://tables@storageaccount.dfs.core.windows.net/folder/materialized_table/" }

/-- The module-level `cetas_sql` f-string of the notebook.  In Python it is
interpolated exactly once, at definition time, from the module-level CONFIG;
the interpolation only reads CONFIG of external_table. -/
def cetas_sql : String :=
  "\nCREATE EXTERNAL TABLE " ++ CONFIG.external_table ++
    "\n    WITH (\n    LOCATION = \x27/folder_name/\x27,\n    DATA_SOURCE = [data_source_name],\n    FILE_FORMAT = [file_format_name]\n    )\nAS\n    SELECT\n       *\n    FROM ...\n"

/-- Environment oracle: the behaviour of the external systems that is not a
function of the embedded state.  Boolean fields say whether the corresponding
external call raises; `statCmdFails i` says whether the i-th CREATE STATISTICS
execution raises.  The `created*` fields describe the table the engine
materializes for `cetas_sql` (result schema and output files), which is
determined by the engine and the source data, not by the embedded state. -/
structure Env where
  connect1Fails : Bool
  dropFails : Bool
  rmFails : Bool
  createFails : Bool
  connect2Fails : Bool
  statsQueryFails : Bool
  statCmdFails : Nat → Bool
  createdSchema : String
  createdColumns : List String
  createdLocation : String
  createdData : String

/-- Observable events of a run: statements sent to the engine, storage calls,
log lines, and connection acquisition and release. -/
inductive Ev where
  | connect1
  | existsCheck (b : Bool)
  | drop
  | logSkipDrop
  | rmCall (path : String)
  | logDeleted (b : Bool)
  | createCall (sql : String)
  | logCreateOk
  | logErrorRefresh
  | release1
  | logRefreshDone
  | logSkipStats
  | connect2
  | logNoStats
  | logStatsHeader (n : Nat)
  | statCmd (sql : String) (ok : Bool)
  | logErrorStats
  | release2
  | logStatsDone
deriving Repr, DecidableEq

/-- Outcome of a call: normal return, or a propagated Python exception. -/
inductive Outcome where
  | ok
  | raised (msg : String)
deriving Repr, DecidableEq

/-- Python `str.split(sep)` for a one-character separator, on the character
list of the string: always returns at least one piece. -/
def splitOnChar (sep : Char) : List Char → List String
  | [] => [""]
  | c :: rest =>
      match splitOnChar sep rest with
      | [] => []
      | piece :: pieces =>
          if c == sep then "" :: piece :: pieces
          else (String.mk [c] ++ piece) :: pieces

/-- Whether the first list is a prefix of the second. -/
def listPrefixOf : List Char → List Char → Bool
  | [], _ => true
  | _ :: _, [] => false
  | a :: as, b :: bs => a == b && listPrefixOf as bs

/-- Whether `p` is a prefix of `s`: a stored object with path `s` lies under
the folder `p`. -/
def strPrefixOf (p s : String) : Bool :=
  listPrefixOf p.data s.data

/-- Python `name.split(".")[-1]`: the unqualified part of a possibly
schema-qualified table name. -/
def unqual (name : String) : String :=
  (splitOnChar '.' name.data).getLastD ""

/-- `table_exists(stmt, table_name)`: runs
`SELECT 1 FROM sys.external_tables WHERE name = table_name.split(".")[-1]`
and returns `rs.next()`, i.e. whether the result set has at least one row. -/
def table_exists (s : SynState) (table_name : String) : Bool :=
  s.tables.any fun t => t.name == unqual table_name

/-- `drop_external_table(stmt, table_name)`: the engine removes the catalog
entries (and with them their statistics objects) whose unqualified name
matches the dropped table name. -/
def drop_external_table (tables : List ExtTable) (table_name : String) : List ExtTable :=
  tables.filter fun t => !(t.name == unqual table_name)

/-- Modelled from the spec: `mssparkutils.fs.rm(path, recurse=True)` is an
external storage primitive whose implementation is not part of this
repository.  Per the spec (section 4.4) it removes all objects under the path
recursively, returns whether anything was deleted (`false` is the normal
outcome when the path was already absent), and fails with StorageError only on
access/permission failures, supplied here by the environment oracle. -/
def fs_rm (env : Env) (storage : List (String × String)) (path : String) :
    Except String (Bool × List (String × String)) :=
  if env.rmFails then .error "StorageError"
  else
    .ok (storage.any (fun kv => strPrefixOf path kv.1),
      storage.filter fun kv => !(strPrefixOf path kv.1))

/-- `delete_adls_path(path)`: calls `mssparkutils.fs.rm(path, recurse=True)`
and logs whether anything was deleted; a `false` return is handled as a
normal, logged outcome. -/
def delete_adls_path (env : Env) (s : SynState) (path : String) :
    Except String Unit × SynState × List Ev :=
  match fs_rm env s.storage path with
  | .error e => (.error e, s, [Ev.rmCall path])
  | .ok (deleted, st) =>
      (.ok (), { s with storage := st }, [Ev.rmCall path, Ev.logDeleted deleted])

/-- Insertion into the path-to-content map of the object store. -/
def storeInsert (k v : String) (st : List (String × String)) : List (String × String) :=
  (k, v) :: st.filter fun kv => !(kv.1 == k)

/-- The table the engine materializes when it executes `cetas_sql`: its name
comes from the statement text (which embeds the module-level CONFIG), its
schema and columns from the engine and the defining query; it starts with no
statistics objects. -/
def createdTable (env : Env) : ExtTable :=
  { schemaName := env.createdSchema
    name := unqual CONFIG.external_table
    columns := env.createdColumns
    stats := [] }

/-- `create_external_table(stmt, config)`: computes `location_folder` from the
config (the value is never used afterwards) and executes the module-level
`cetas_sql` string. -/
def create_external_table (env : Env) (config : Config) (s : SynState) :
    Except String Unit × SynState × List Ev :=
  let location_folder :=
    ((config.materialized_table_output_path.dropRightWhile fun c => c == '/').splitOn "/").getLastD ""
  if env.createFails then
    (.error "QueryError: CETAS rejected", s, [Ev.createCall cetas_sql])
  else
    (.ok (),
      { tables := s.tables ++ [createdTable env]
        storage := storeInsert env.createdLocation env.createdData s.storage },
      [Ev.createCall cetas_sql, Ev.logCreateOk])

/-- One planned statistics command: a row of the planning query, carrying the
schema name, object name and column name interpolated into the statement. -/
structure StatCmd where
  schemaName : String
  tableName : String
  columnName : String
deriving Repr, DecidableEq

/-- The `cmd_create` string of one row of the planning query. -/
def StatCmd.render (c : StatCmd) : String :=
  "CREATE STATISTICS [Stats_" ++ c.columnName ++ "] ON [" ++ c.schemaName ++ "].[" ++
    c.tableName ++ "] ([" ++ c.columnName ++ "]) WITH FULLSCAN;"

/-- Number of sys.stats_columns rows of table `t` for column `c`: one row per
statistics object per covered column occurrence. -/
def statsColumnRows (t : ExtTable) (c : String) : Nat :=
  (t.stats.map fun st => (st.cols.filter fun x => x == c).length).sum

/-- The rows of the planning query contributed by one matching sys.objects row:
sys.columns is inner-joined (one row per column, in declaration order), then
sys.stats_columns and sys.stats are left-joined with no further filter, so a
column covered by n > 0 statistics rows contributes n result rows and an
uncovered column contributes exactly one. -/
def planForTable (t : ExtTable) : List StatCmd :=
  t.columns.flatMap fun c =>
    List.replicate (max 1 (statsColumnRows t c)) ⟨t.schemaName, t.name, c⟩

/-- The full result of the planning query
(`... FROM sys.objects AS o INNER JOIN sys.columns ... WHERE o.name = tname`):
every object whose unqualified name matches contributes its rows, in catalog
enumeration order. -/
def planStatistics (tables : List ExtTable) (tname : String) : List StatCmd :=
  (tables.filter fun t => t.name == tname).flatMap planForTable

/-- Effect of successfully executing one CREATE STATISTICS statement on one
catalog entry: the named tables gain a single-column statistics object. -/
def execStatCmd1 (c : StatCmd) (t : ExtTable) : ExtTable :=
  if t.name == c.tableName && t.schemaName == c.schemaName then
    { t with stats := t.stats ++ [⟨"Stats_" ++ c.columnName, [c.columnName]⟩] }
  else t

/-- The per-command execution loop of `create_statistics_for_external_table`:
each command is executed inside its own try/except, so a failing command is
logged and the loop continues with the next command. -/
def applyStatCmds (env : Env) (i : Nat) (cmds : List StatCmd) (tables : List ExtTable) :
    List ExtTable × List Ev :=
  match cmds with
  | [] => (tables, [])
  | c :: rest =>
      if env.statCmdFails i then
        let r := applyStatCmds env (i + 1) rest tables
        (r.1, Ev.statCmd c.render false :: r.2)
      else
        let r := applyStatCmds env (i + 1) rest (tables.map (execStatCmd1 c))
        (r.1, Ev.statCmd c.render true :: r.2)

/-- `create_statistics_for_external_table(config)`: opens its own fresh
connection, runs the planning query, and executes the planned commands with
per-command failure isolation; the outer try/except re-raises connection and
planning failures, and the finally block always closes the resources and logs
completion. -/
def create_statistics_for_external_table (env : Env) (config : Config) (s : SynState) :
    Outcome × SynState × List Ev :=
  if env.connect2Fails then
    (.raised "ConnectionError", s, [Ev.connect2, Ev.logErrorStats, Ev.logStatsDone])
  else if env.statsQueryFails then
    (.raised "QueryError: metadata query rejected", s,
      [Ev.connect2, Ev.logErrorStats, Ev.release2, Ev.logStatsDone])
  else
    let cmds := planStatistics s.tables (unqual config.external_table)
    if cmds.isEmpty then
      (.ok, s, [Ev.connect2, Ev.logNoStats, Ev.release2, Ev.logStatsDone])
    else
      let r := applyStatCmds env 0 cmds s.tables
      (.ok, { s with tables := r.1 },
        Ev.connect2 :: Ev.logStatsHeader cmds.length :: r.2 ++ [Ev.release2, Ev.logStatsDone])

/-- The drop step of the try block of `refresh_external_table`: check
existence, and either drop or log the skip. -/
def refreshDropPhase (env : Env) (config : Config) (s : SynState) :
    Except String Unit × SynState × List Ev :=
  if table_exists s config.external_table then
    if env.dropFails then
      (.error "QueryError: DROP rejected", s, [Ev.existsCheck true, Ev.drop])
    else
      (.ok (),
        { s with tables := drop_external_table s.tables config.external_table },
        [Ev.existsCheck true, Ev.drop])
  else
    (.ok (), s, [Ev.existsCheck false, Ev.logSkipDrop])

/-- The try block of `refresh_external_table`: connect, drop or skip, delete
the output path, create the table.  The returned Bool is the `table_created`
flag, set only after a successful create; an error return carries the state
mutations that already happened. -/
def refreshTryBody (env : Env) (config : Config) (s : SynState) :
    Except String Unit × SynState × List Ev × Bool :=
  if env.connect1Fails then
    (.error "ConnectionError", s, [Ev.connect1], false)
  else
    match refreshDropPhase env config s with
    | (.error e, s1, evs1) => (.error e, s1, Ev.connect1 :: evs1, false)
    | (.ok _, s1, evs1) =>
        match delete_adls_path env s1 config.materialized_table_output_path with
        | (.error e, s2, evs2) => (.error e, s2, Ev.connect1 :: (evs1 ++ evs2), false)
        | (.ok _, s2, evs2) =>
            match create_external_table env config s2 with
            | (.error e, s3, evs3) =>
                (.error e, s3, Ev.connect1 :: (evs1 ++ evs2 ++ evs3), false)
            | (.ok _, s3, evs3) =>
                (.ok (), s3, Ev.connect1 :: (evs1 ++ evs2 ++ evs3), true)

/-- `refresh_external_table(config)`: the try block, the except block that
logs and re-raises, the finally block that closes the acquired resources and
logs completion, and the trailing statistics step guarded by `table_created`.
An exception raised in the try block propagates past the trailing code, so
the `table_created = False` branch of the trailing `if` is reachable only if
the try block returned normally. -/
def refresh_external_table (env : Env) (config : Config) (s : SynState) :
    Outcome × SynState × List Ev :=
  match refreshTryBody env config s with
  | (.error e, s1, evs, _) =>
      let rel := if env.connect1Fails then [] else [Ev.release1]
      (.raised e, s1, evs ++ [Ev.logErrorRefresh] ++ rel ++ [Ev.logRefreshDone])
  | (.ok _, s1, evs, table_created) =>
      if table_created then
        let r := create_statistics_for_external_table env config s1
        (r.1, r.2.1, evs ++ [Ev.release1, Ev.logRefreshDone] ++ r.2.2)
      else
        (.ok, s1, evs ++ [Ev.release1, Ev.logRefreshDone, Ev.logSkipStats])

/-- The final durable state of one refresh run. -/
def refreshFinalState (env : Env) (config : Config) (s : SynState) : SynState :=
  (refresh_external_table env config s).2.1

/-- The catalog entry for the materialized table after a fully successful run:
the freshly created table, carrying one single-column full-scan statistics
object per column, in column order. -/
def finalTable (env : Env) : ExtTable :=
  { schemaName := env.createdSchema
    name := unqual CONFIG.external_table
    columns := env.createdColumns
    stats := env.createdColumns.map fun c => ⟨"Stats_" ++ c, [c]⟩ }

/-- The durable state a fully successful run normalizes to: all catalog
entries with the target name replaced by the fresh table, the output path
cleared, and the CETAS result files written. -/
def normalizedState (env : Env) (config : Config) (s : SynState) : SynState :=
  { tables := (s.tables.filter fun t => !(t.name == unqual config.external_table)) ++
      [finalTable env]
    storage := storeInsert env.createdLocation env.createdData
      (s.storage.filter fun kv =>
        !(strPrefixOf config.materialized_table_output_path kv.1)) }

/-- Sequential application of a list of statistics commands to one catalog
entry. -/
def execAll (cmds : List StatCmd) (t : ExtTable) : ExtTable :=
  match cmds with
  | [] => t
  | c :: rest => execAll rest (execStatCmd1 c t)

/-- Event kinds that can appear in the trace of the try block of
`refresh_external_table`. -/
def isTryEv : Ev → Bool
  | .connect1 => true
  | .existsCheck _ => true
  | .drop => true
  | .logSkipDrop => true
  | .rmCall _ => true
  | .logDeleted _ => true
  | .createCall _ => true
  | .logCreateOk => true
  | _ => false

/-- Event kinds that can appear in the trace of
`create_statistics_for_external_table`. -/
def isStatsEv : Ev → Bool
  | .connect2 => true
  | .logNoStats => true
  | .logStatsHeader _ => true
  | .statCmd _ _ => true
  | .logErrorStats => true
  | .release2 => true
  | .logStatsDone => true
  | _ => false


section SampleInputs
/-- A catalog holding two external tables with the same unqualified name in
two different schemas. -/
def sTwoMatches : SynState :=
  { tables :=
      [{ schemaName := "sch1", name := "T", columns := [], stats := [] },
       { schemaName := "sch2", name := "T", columns := [], stats := [] }]
    storage := [] }

/-- A table whose single column is covered by two existing statistics
objects. -/
def tTwoStats : ExtTable :=
  { schemaName := "dbo"
    name := "T"
    columns := ["a"]
    stats := [{ name := "s1", cols := ["a"] }, { name := "s2", cols := ["a"] }] }

/-- A storage holding one object that is not under the target path. -/
def sOneFile : SynState :=
  { tables := [], storage := [("abfss://c/other/file", "x")] }

/-- An environment in which every external call succeeds and the CETAS result
has two columns. -/
def envAllOk : Env :=
  { connect1Fails := false
    dropFails := false
    rmFails := false
    createFails := false
    connect2Fails := false
    statsQueryFails := false
    statCmdFails := fun _ => false
    createdSchema := "dbo"
    createdColumns := ["a", "b"]
    createdLocation := "abfss://tables@storageaccount.dfs.core.windows.net/folder/materialized_table/part0"
    createdData := "rows" }

/-- The empty external state. -/
def sEmpty : SynState := { tables := [], storage := [] }

/-- A config that targets table T. -/
def cfgT : Config :=
  { external_table := "T"
    workspace_name := "w"
    database_name := "db"
    materialized_table_output_path := "abfss://c/folder/out/" }

/-- A state in which table T pre-exists with three columns and no statistics,
and one stale file sits under the output path. -/
def sT : SynState :=
  { tables := [{ schemaName := "dbo", name := "T", columns := ["a", "b", "c"], stats := [] }]
    storage := [("abfss://c/folder/out/old", "stale")] }

/-- An environment in which only the second statistics command fails. -/
def envStatFail1 : Env := { envAllOk with statCmdFails := fun i => i == 1 }

/-- An environment in which only the CETAS create fails. -/
def envCreateFail : Env := { envAllOk with createFails := true }

/-- An environment in which only the drop fails. -/
def envDropFail : Env := { envAllOk with dropFails := true }

/-- An environment in which only the storage deletion fails. -/
def envRmFail : Env := { envAllOk with rmFails := true }

/-- An environment in which only the first connection fails. -/
def envConnect1Fail : Env := { envAllOk with connect1Fails := true }

end SampleInputs

section Helpers

lemma not_mem_of_kind {P : Ev → Bool} {l : List Ev} (hl : ∀ e ∈ l, P e = true)
    {a : Ev} (ha : P a = false) : a ∉ l := by
  intro hm
  have h := hl a hm
  rw [h] at ha
  exact absurd ha (by decide)

lemma count_zero_of_kind {P : Ev → Bool} {l : List Ev} (hl : ∀ e ∈ l, P e = true)
    {a : Ev} (ha : P a = false) : l.count a = 0 :=
  List.count_eq_zero.mpr (not_mem_of_kind hl ha)

lemma filter_self_idem {α : Type} (l : List α) (p : α → Bool) :
    (l.filter p).filter p = l.filter p :=
  List.filter_eq_self.mpr fun _ ha => (List.mem_filter.mp ha).2

lemma filter_not_self_nil {α : Type} (l : List α) (p : α → Bool) :
    (l.filter fun a => !(p a)).filter p = [] := by
  apply List.filter_eq_nil_iff.mpr
  intro a ha
  have h := (List.mem_filter.mp ha).2
  simp only [Bool.not_eq_true'] at h
  simp [h]

lemma map_id_of_mem {α : Type} {l : List α} {f : α → α} (h : ∀ a ∈ l, f a = a) :
    l.map f = l := by
  induction l with
  | nil => rfl
  | cons a t ih =>
      simp only [List.map_cons, h a (by simp)]
      rw [ih fun b hb => h b (by simp [hb])]

lemma drop_eq_self_of_not_exists (s : SynState) (n : String)
    (h : table_exists s n = false) :
    s.tables.filter (fun t => !(t.name == unqual n)) = s.tables := by
  rw [table_exists, Bool.eq_false_iff, Ne, List.any_eq_true] at h
  apply List.filter_eq_self.mpr
  intro t ht
  have hn : ¬(t.name == unqual n) = true := fun hc => h ⟨t, ht, hc⟩
  simp [Bool.not_eq_true] at hn ⊢
  exact hn

end Helpers

section TraceLemmas

lemma applyStatCmds_trace_shape (env : Env) (cmds : List StatCmd) :
    ∀ (i : Nat) (tables : List ExtTable) (e : Ev),
      e ∈ (applyStatCmds env i cmds tables).2 → ∃ c b, e = Ev.statCmd c b := by
  induction cmds with
  | nil => intro i tables e he; simp [applyStatCmds] at he
  | cons c rest ih =>
      intro i tables e he
      rw [applyStatCmds] at he
      by_cases hf : env.statCmdFails i = true
      · simp only [hf, if_true] at he
        rcases List.mem_cons.mp he with rfl | he2
        · exact ⟨_, _, rfl⟩
        · exact ih _ _ _ he2
      · simp only [hf, if_false] at he
        rcases List.mem_cons.mp he with rfl | he2
        · exact ⟨_, _, rfl⟩
        · exact ih _ _ _ he2

lemma stats_trace_kinds (env : Env) (config : Config) (s : SynState) :
    ∀ e ∈ (create_statistics_for_external_table env config s).2.2, isStatsEv e = true := by
  simp only [create_statistics_for_external_table]
  cases h2 : env.connect2Fails <;>
    cases hq : env.statsQueryFails <;>
      cases hemp : (planStatistics s.tables (unqual config.external_table)).isEmpty <;>
        simp [isStatsEv] <;>
          (intro e he
           rcases he with he2 | rfl | rfl
           · obtain ⟨c, b, rfl⟩ := applyStatCmds_trace_shape env _ _ _ _ he2
             rfl
           · rfl
           · rfl)

lemma stats_trace_has_connect2 (env : Env) (config : Config) (s : SynState) :
    Ev.connect2 ∈ (create_statistics_for_external_table env config s).2.2 := by
  simp only [create_statistics_for_external_table]
  cases h2 : env.connect2Fails <;>
    cases hq : env.statsQueryFails <;>
      cases hemp : (planStatistics s.tables (unqual config.external_table)).isEmpty <;>
        simp

lemma tryBody_trace_kinds (env : Env) (config : Config) (s : SynState) :
    ∀ e ∈ (refreshTryBody env config s).2.2.1, isTryEv e = true := by
  simp only [refreshTryBody, refreshDropPhase, delete_adls_path, create_external_table, fs_rm]
  cases h1 : env.connect1Fails <;>
    cases hex : table_exists s config.external_table <;>
      cases hd : env.dropFails <;>
        cases hr : env.rmFails <;>
          cases hc : env.createFails <;>
            simp [isTryEv]

lemma tryBody_ok_iff_created (env : Env) (config : Config) (s : SynState) :
    (refreshTryBody env config s).1 = .ok () ↔ (refreshTryBody env config s).2.2.2 = true := by
  simp only [refreshTryBody, refreshDropPhase, delete_adls_path, create_external_table, fs_rm]
  cases h1 : env.connect1Fails <;>
    cases hex : table_exists s config.external_table <;>
      cases hd : env.dropFails <;>
        cases hr : env.rmFails <;>
          cases hc : env.createFails <;>
            simp

end TraceLemmas

section ClaimC1

lemma applyStatCmds_trace_mem (env : Env) (cmds : List StatCmd) :
    ∀ (i j : Nat) (hj : j < cmds.length) (tables : List ExtTable),
      Ev.statCmd ((cmds.get ⟨j, hj⟩).render) (!env.statCmdFails (i + j)) ∈
        (applyStatCmds env i cmds tables).2 := by
  induction cmds with
  | nil => intro i j hj tables; exact absurd hj (by simp)
  | cons c rest ih =>
      intro i j hj tables
      cases j with
      | zero =>
          cases hf : env.statCmdFails i <;>
            simp [applyStatCmds, hf]
      | succ j2 =>
          have hj2 : j2 < rest.length := Nat.lt_of_succ_lt_succ hj
          have harith : i + (j2 + 1) = (i + 1) + j2 := by omega
          have hget : (c :: rest).get ⟨j2 + 1, hj⟩ = rest.get ⟨j2, hj2⟩ := rfl
          rw [hget, harith]
          cases hf : env.statCmdFails i <;>
            (simp only [applyStatCmds, hf, Bool.false_eq_true, if_true, if_false]
             exact List.mem_cons_of_mem _ (ih (i + 1) j2 hj2 _))

/-- C1: during statistics application, each planned command runs inside its
own try/except: even when the environment fails the command at position k,
every planned command still gets its execution event in the trace (the failing
one logged as failed), and the statistics step returns normally and reaches
its completion log instead of propagating the per-command error. -/
theorem stats_application_isolates_per_command_failure
    (env : Env) (config : Config) (s : SynState) (k : Nat)
    (h2 : env.connect2Fails = false) (hq : env.statsQueryFails = false)
    (hk : k < (planStatistics s.tables (unqual config.external_table)).length)
    (hkf : env.statCmdFails k = true) :
    (create_statistics_for_external_table env config s).1 = Outcome.ok ∧
    (∀ (j : Nat) (hj : j < (planStatistics s.tables (unqual config.external_table)).length),
      Ev.statCmd (((planStatistics s.tables (unqual config.external_table)).get ⟨j, hj⟩).render)
          (!env.statCmdFails j) ∈ (create_statistics_for_external_table env config s).2.2) ∧
    Ev.logStatsDone ∈ (create_statistics_for_external_table env config s).2.2 := by
  have hne : (planStatistics s.tables (unqual config.external_table)).isEmpty = false := by
    cases hE : (planStatistics s.tables (unqual config.external_table)).isEmpty
    · rfl
    · rw [List.isEmpty_iff.mp hE] at hk
      simp at hk
  rw [create_statistics_for_external_table]
  simp only [h2, hq, hne, Bool.false_eq_true, if_false]
  refine ⟨trivial, ?_, ?_⟩
  · intro j hj
    have hmem := applyStatCmds_trace_mem env _ 0 j hj s.tables
    rw [Nat.zero_add] at hmem
    exact List.mem_cons_of_mem _
      (List.mem_cons_of_mem _ (List.mem_append_left _ hmem))
  · simp

/-- C1 witness: three planned commands of which exactly the second fails; the
statistics step still returns normally and logs completion. -/
theorem stats_application_isolation_witness :
    (create_statistics_for_external_table envStatFail1 cfgT sT).1 = Outcome.ok ∧
      Ev.logStatsDone ∈ (create_statistics_for_external_table envStatFail1 cfgT sT).2.2 := by
  have h := stats_application_isolates_per_command_failure envStatFail1 cfgT sT 1
    rfl rfl (by decide) (by decide)
  exact ⟨h.1, h.2.2⟩

end ClaimC1

section ClaimC2

/-- C2 counterexample: a run with a failing create step never invokes
statistics and propagates the failure, but it does NOT report the skip of the
statistics phase: the skip-report branch is unreachable because the re-raised
error propagates past it, refuting the reported-skip part of the claim. -/
theorem create_failure_skip_never_reported :
    (refresh_external_table envCreateFail cfgT sT).1 =
        Outcome.raised "QueryError: CETAS rejected" ∧
      Ev.logSkipStats ∉ (refresh_external_table envCreateFail cfgT sT).2.2 ∧
      Ev.connect2 ∉ (refresh_external_table envCreateFail cfgT sT).2.2 := by
  decide

/-- C2 (amended): for every run in which the table-creation step fails, the
statistics phase is never invoked (no statistics connection, no statistics
command), and the run reports failure by logging the error and re-raising it
to the caller after releasing the connection; the skip of the statistics phase
is not separately reported, because the skip-report branch is unreachable once
the error propagates. -/
theorem create_failure_skips_statistics (env : Env) (config : Config) (s : SynState)
    (h1 : env.connect1Fails = false) (h2 : env.dropFails = false)
    (h3 : env.rmFails = false) (h4 : env.createFails = true) :
    (refresh_external_table env config s).1 = Outcome.raised "QueryError: CETAS rejected" ∧
    (∀ c b, Ev.statCmd c b ∉ (refresh_external_table env config s).2.2) ∧
    Ev.connect2 ∉ (refresh_external_table env config s).2.2 ∧
    Ev.logErrorRefresh ∈ (refresh_external_table env config s).2.2 ∧
    Ev.release1 ∈ (refresh_external_table env config s).2.2 ∧
    Ev.logSkipStats ∉ (refresh_external_table env config s).2.2 := by
  simp only [refresh_external_table, refreshTryBody, refreshDropPhase, delete_adls_path,
    create_external_table, fs_rm]
  cases hex : table_exists s config.external_table <;>
    simp [h1, h2, h3, h4]

/-- C2 witness of the amended claim at a concrete input. -/
theorem create_failure_skips_statistics_witness :
    (refresh_external_table envCreateFail CONFIG sEmpty).1 =
        Outcome.raised "QueryError: CETAS rejected" ∧
      Ev.connect2 ∉ (refresh_external_table envCreateFail CONFIG sEmpty).2.2 ∧
      Ev.logSkipStats ∉ (refresh_external_table envCreateFail CONFIG sEmpty).2.2 := by
  have h := create_failure_skips_statistics envCreateFail CONFIG sEmpty rfl rfl rfl rfl
  exact ⟨h.1, h.2.2.1, h.2.2.2.2.2⟩

end ClaimC2

section ClaimC3

/-- C3: when the target table does not pre-exist, the refresh never issues a
drop and still performs the storage-cleanup call and the create call; when it
does pre-exist, the refresh issues exactly one drop, and that drop precedes
the storage-cleanup call. -/
theorem refresh_drop_iff_table_preexists (env : Env) (config : Config) (s : SynState)
    (h1 : env.connect1Fails = false) (h2 : env.dropFails = false)
    (h3 : env.rmFails = false) :
    (table_exists s config.external_table = false →
      (refresh_external_table env config s).2.2.count Ev.drop = 0 ∧
      Ev.rmCall config.materialized_table_output_path ∈
        (refresh_external_table env config s).2.2 ∧
      Ev.createCall cetas_sql ∈ (refresh_external_table env config s).2.2) ∧
    (table_exists s config.external_table = true →
      (refresh_external_table env config s).2.2.count Ev.drop = 1 ∧
      ∃ l1 l2, (refresh_external_table env config s).2.2 = l1 ++ l2 ∧
        l1.count Ev.drop = 1 ∧ l2.count Ev.drop = 0 ∧
        Ev.rmCall config.materialized_table_output_path ∈ l2) := by
  have hs0 : ∀ s1, (create_statistics_for_external_table env config s1).2.2.count Ev.drop = 0 :=
    fun s1 => count_zero_of_kind (stats_trace_kinds env config s1) rfl
  constructor
  · intro hex
    simp only [refresh_external_table, refreshTryBody, refreshDropPhase, delete_adls_path,
      create_external_table, fs_rm]
    cases h4 : env.createFails <;>
      simp [h1, h2, h3, hex, List.count_append, List.count_cons, hs0]
  · intro hex
    simp only [refresh_external_table, refreshTryBody, refreshDropPhase, delete_adls_path,
      create_external_table, fs_rm]
    cases h4 : env.createFails <;>
      (simp only [h1, h2, h3, hex, Bool.false_eq_true, if_true, if_false]
       constructor
       · simp [List.count_append, List.count_cons, hs0]
       · refine ⟨[Ev.connect1, Ev.existsCheck true, Ev.drop], _, rfl, by decide, ?_, by simp⟩
         simp [List.count_append, List.count_cons, hs0])

/-- C3 witness: with a concrete pre-existing table the refresh drops exactly
once, and on the empty catalog it never drops. -/
theorem refresh_drop_iff_table_preexists_witness :
    (refresh_external_table envAllOk cfgT sT).2.2.count Ev.drop = 1 ∧
      (refresh_external_table envAllOk cfgT sEmpty).2.2.count Ev.drop = 0 :=
  ⟨((refresh_drop_iff_table_preexists envAllOk cfgT sT rfl rfl rfl).2 (by decide)).1,
   ((refresh_drop_iff_table_preexists envAllOk cfgT sEmpty rfl rfl rfl).1 (by decide)).1⟩

end ClaimC3

section ClaimC4

/-- C4: the claim says `table_exists` returns true iff exactly one catalog
entry matches the unqualified name.  The code returns `rs.next()`, which is
true iff at least one row matches: with two external tables of the same
unqualified name in different schemas it still returns true.  This theorem
proves the amended claim: true iff at least one match, and absence is a
normal false result, not an error. -/
theorem table_exists_iff_at_least_one_match (s : SynState) (name : String) :
    table_exists s name = true ↔
      0 < (s.tables.filter fun t => t.name == unqual name).length := by
  rw [table_exists, List.any_eq_true]
  constructor
  · rintro ⟨t, ht, hp⟩
    exact List.length_pos.mpr (List.ne_nil_of_mem (List.mem_filter.mpr ⟨ht, hp⟩))
  · intro h
    obtain ⟨t, ht⟩ := List.exists_mem_of_ne_nil _ (List.length_pos.mp h)
    have hm := List.mem_filter.mp ht
    exact ⟨t, hm.1, hm.2⟩


/-- C4 counterexample: with two matching catalog entries (so not exactly one),
`table_exists` still returns true, refuting the stated claim that the result
is true iff exactly one match exists. -/
theorem table_exists_true_with_two_matches :
    table_exists sTwoMatches "T" = true ∧
      (sTwoMatches.tables.filter fun t => t.name == unqual "T").length = 2 := by
  decide

end ClaimC4

section ClaimC5

lemma flatMap_replicate_eq_map (g : String → Nat) (sch tbl : String)
    (cols : List String) (h : ∀ c ∈ cols, g c = 0) :
    (cols.flatMap fun c => List.replicate (max 1 (g c)) (⟨sch, tbl, c⟩ : StatCmd)) =
      cols.map fun c => ⟨sch, tbl, c⟩ := by
  induction cols with
  | nil => rfl
  | cons c rest ih =>
      rw [List.flatMap_cons, h c (by simp)]
      rw [ih fun b hb => h b (by simp [hb])]
      rfl

lemma planForTable_nostats (t : ExtTable)
    (h : ∀ c ∈ t.columns, statsColumnRows t c = 0) :
    planForTable t = t.columns.map fun c => ⟨t.schemaName, t.name, c⟩ := by
  rw [planForTable]
  exact flatMap_replicate_eq_map (statsColumnRows t) t.schemaName t.name t.columns h

/-- C5 (amended): the planning query yields, per matching catalog object and
per column in catalog enumeration order, max(1, n) rows where n is the number
of existing statistics rows covering the column; so it yields exactly one
command per column precisely when no existing statistics cover the columns
(as on a freshly created table), in enumeration order; zero planned commands
make the statistics step a logged no-op, not an error. -/
theorem plan_one_command_per_column_without_prior_stats
    (tables : List ExtTable) (t : ExtTable) (u : String)
    (hmatch : (tables.filter fun x => x.name == u) = [t])
    (hnostats : ∀ c ∈ t.columns, statsColumnRows t c = 0) :
    (planStatistics tables u).map StatCmd.columnName = t.columns ∧
    (planStatistics tables u).length = t.columns.length ∧
    (∀ env config s, env.connect2Fails = false → env.statsQueryFails = false →
      planStatistics s.tables (unqual config.external_table) = [] →
      create_statistics_for_external_table env config s =
        (Outcome.ok, s, [Ev.connect2, Ev.logNoStats, Ev.release2, Ev.logStatsDone])) := by
  have hplan : planStatistics tables u = t.columns.map fun c => ⟨t.schemaName, t.name, c⟩ := by
    rw [planStatistics, hmatch]
    simp only [List.flatMap_cons, List.flatMap_nil, List.append_nil]
    exact planForTable_nostats t hnostats
  refine ⟨?_, ?_, ?_⟩
  · rw [hplan, List.map_map]
    exact List.map_id _
  · rw [hplan, List.length_map]
  · intro env config s h2 hq hempty
    rw [create_statistics_for_external_table]
    simp [h2, hq, hempty]


/-- C5 counterexample: a column covered by two existing statistics rows
contributes two planned commands, so the plan is not exactly one command per
column when prior statistics exist — the left joins of the planning query
multiply rows. -/
theorem plan_duplicates_with_prior_stats :
    (planStatistics [tTwoStats] "T").length = 2 ∧ tTwoStats.columns.length = 1 := by
  decide

/-- C5 witness: on a concrete catalog holding a single matching table with
three columns and no statistics, the plan names exactly its columns, in
catalog order. -/
theorem plan_one_command_per_column_witness :
    (planStatistics sT.tables "T").map StatCmd.columnName = ["a", "b", "c"] :=
  (plan_one_command_per_column_without_prior_stats sT.tables
    { schemaName := "dbo", name := "T", columns := ["a", "b", "c"], stats := [] } "T"
    (by decide) (fun c _ => rfl)).1

end ClaimC5

section ClaimC8

/-- C8: `delete_adls_path` returns the deletion indicator of the recursive
remove; a false indicator (path already absent) is a normal logged outcome
that leaves the state unchanged and raises nothing, and a StorageError is
raised only for the access-failure case of the environment. -/
theorem delete_adls_path_absence_not_an_error (env : Env) (s : SynState) (path : String) :
    (env.rmFails = false →
      ∃ b s2, delete_adls_path env s path = (.ok (), s2, [Ev.rmCall path, Ev.logDeleted b]) ∧
        (b = false ↔ ∀ kv ∈ s.storage, strPrefixOf path kv.1 = false) ∧
        (b = false → s2 = s)) ∧
    (env.rmFails = true →
      delete_adls_path env s path = (.error "StorageError", s, [Ev.rmCall path])) := by
  constructor
  · intro h
    refine ⟨s.storage.any fun kv => strPrefixOf path kv.1,
      { s with storage := s.storage.filter fun kv => !(strPrefixOf path kv.1) }, ?_, ?_, ?_⟩
    · rw [delete_adls_path, fs_rm]
      simp [h]
    · rw [Bool.eq_false_iff, Ne, List.any_eq_true]
      constructor
      · intro hn kv hkv
        rw [Bool.eq_false_iff, Ne]
        exact fun hp => hn ⟨kv, hkv, hp⟩
      · rintro hall ⟨kv, hkv, hp⟩
        rw [hall kv hkv] at hp
        exact absurd hp (by decide)
    · intro hb
      rw [Bool.eq_false_iff, Ne, List.any_eq_true] at hb
      have hfil : (s.storage.filter fun kv => !(strPrefixOf path kv.1)) = s.storage := by
        apply List.filter_eq_self.mpr
        intro kv hkv
        rw [Bool.not_eq_true', Bool.eq_false_iff, Ne]
        exact fun hp => hb ⟨kv, hkv, hp⟩
      rw [hfil]
  · intro h
    rw [delete_adls_path, fs_rm]
    simp [h]



/-- C8 witness: deleting an absent path on a concrete store returns the
false indicator, leaves the state unchanged and raises nothing. -/
theorem delete_adls_path_absence_witness :
    ∃ b s2, delete_adls_path envAllOk sOneFile "abfss://c/target/" =
      (.ok (), s2, [Ev.rmCall "abfss://c/target/", Ev.logDeleted b]) ∧
      (b = false ↔ ∀ kv ∈ sOneFile.storage, strPrefixOf "abfss://c/target/" kv.1 = false) ∧
      (b = false → s2 = sOneFile) :=
  (delete_adls_path_absence_not_an_error envAllOk sOneFile "abfss://c/target/").1 rfl

end ClaimC8

section ClaimC9

lemma applyStatCmds_state_nofail (env : Env) (cmds : List StatCmd)
    (hf : ∀ i, env.statCmdFails i = false) :
    ∀ (i : Nat) (tables : List ExtTable),
      (applyStatCmds env i cmds tables).1 = tables.map (execAll cmds) := by
  induction cmds with
  | nil =>
      intro i tables
      simp only [applyStatCmds]
      exact (map_id_of_mem fun a _ => rfl).symm
  | cons c rest ih =>
      intro i tables
      simp only [applyStatCmds, hf i, Bool.false_eq_true, if_false]
      rw [ih (i + 1), List.map_map]
      rfl

lemma execAll_not_target (cmds : List StatCmd) :
    ∀ (t : ExtTable), (∀ c ∈ cmds, (t.name == c.tableName) = false) →
      execAll cmds t = t := by
  induction cmds with
  | nil => intro t _; rfl
  | cons c rest ih =>
      intro t h
      have h1 := h c (by simp)
      have hstep : execStatCmd1 c t = t := by
        rw [execStatCmd1]
        simp [h1]
      rw [execAll, hstep]
      exact ih t fun c2 hc2 => h c2 (by simp [hc2])

lemma execAll_target_cols (sch tbl : String) (cols : List String) :
    ∀ (t : ExtTable), t.name = tbl → t.schemaName = sch →
      execAll (cols.map fun c => ⟨sch, tbl, c⟩) t =
        { t with stats := t.stats ++ cols.map fun c => ⟨"Stats_" ++ c, [c]⟩ } := by
  induction cols with
  | nil => intro t ht hs; simp [execAll]
  | cons c rest ih =>
      intro t ht hs
      rw [List.map_cons, execAll]
      have hstep : execStatCmd1 ⟨sch, tbl, c⟩ t =
          { t with stats := t.stats ++ [⟨"Stats_" ++ c, [c]⟩] } := by
        rw [execStatCmd1]
        simp [ht, hs]
      rw [hstep, ih _ (by simp [ht]) (by simp [hs])]
      simp

lemma tryBody_ok_spec (env : Env) (config : Config) (s : SynState)
    (h1 : env.connect1Fails = false) (h2 : env.dropFails = false)
    (h3 : env.rmFails = false) (h4 : env.createFails = false) :
    (refreshTryBody env config s).1 = .ok () ∧
    (refreshTryBody env config s).2.1 =
      { tables := (s.tables.filter fun t => !(t.name == unqual config.external_table)) ++
          [createdTable env]
        storage := storeInsert env.createdLocation env.createdData
          (s.storage.filter fun kv =>
            !(strPrefixOf config.materialized_table_output_path kv.1)) } ∧
    (refreshTryBody env config s).2.2.2 = true := by
  refine ⟨?_, ?_, ?_⟩ <;>
    (simp only [refreshTryBody, refreshDropPhase, delete_adls_path, create_external_table,
       fs_rm, drop_external_table]
     cases hex : table_exists s config.external_table
     · have hdrop := drop_eq_self_of_not_exists s config.external_table hex
       simp [hex, h1, h2, h3, h4, hdrop]
     · simp [hex, h1, h2, h3, h4])

lemma stats_ok_spec (env : Env) (config : Config)
    (h5 : env.connect2Fails = false) (h6 : env.statsQueryFails = false)
    (h7 : ∀ i, env.statCmdFails i = false)
    (hname : unqual config.external_table = unqual CONFIG.external_table)
    (T0 : List ExtTable)
    (hT0 : ∀ t ∈ T0, (t.name == unqual config.external_table) = false)
    (storage : List (String × String)) :
    (create_statistics_for_external_table env config
        { tables := T0 ++ [createdTable env], storage := storage }).2.1 =
      { tables := T0 ++ [finalTable env], storage := storage } := by
  have hct : ((createdTable env).name == unqual config.external_table) = true :=
    beq_iff_eq.mpr hname.symm
  have hfil : ((T0 ++ [createdTable env]).filter
      fun t => t.name == unqual config.external_table) = [createdTable env] := by
    rw [List.filter_append]
    rw [List.filter_eq_nil_iff.mpr fun t ht => by rw [hT0 t ht]; simp]
    simp [hct]
  have hplan : planStatistics (T0 ++ [createdTable env]) (unqual config.external_table) =
      env.createdColumns.map
        fun c => ⟨env.createdSchema, unqual CONFIG.external_table, c⟩ := by
    rw [planStatistics, hfil]
    simp only [List.flatMap_cons, List.flatMap_nil, List.append_nil]
    exact planForTable_nostats (createdTable env) fun c _ => rfl
  rw [create_statistics_for_external_table]
  simp only [h5, h6, Bool.false_eq_true, if_false]
  rw [hplan]
  cases hE : (env.createdColumns.map
      (fun c => (⟨env.createdSchema, unqual CONFIG.external_table, c⟩ : StatCmd))).isEmpty
  · simp only [Bool.false_eq_true, if_false]
    rw [applyStatCmds_state_nofail env _ h7 0 (T0 ++ [createdTable env])]
    rw [List.map_append]
    have hT0map : T0.map (execAll (env.createdColumns.map
        fun c => ⟨env.createdSchema, unqual CONFIG.external_table, c⟩)) = T0 := by
      apply map_id_of_mem
      intro t ht
      apply execAll_not_target
      intro cmd hcmd
      obtain ⟨c1, _, rfl⟩ := List.mem_map.mp hcmd
      show (t.name == unqual CONFIG.external_table) = false
      rw [← hname]
      exact hT0 t ht
    have hctmap : execAll (env.createdColumns.map
        fun c => ⟨env.createdSchema, unqual CONFIG.external_table, c⟩)
        (createdTable env) = finalTable env := by
      rw [execAll_target_cols env.createdSchema (unqual CONFIG.external_table)
        env.createdColumns (createdTable env) rfl rfl]
      rw [createdTable, finalTable]
      simp
    rw [hT0map]
    simp only [List.map_cons, List.map_nil]
    rw [hctmap]
  · have hcols : env.createdColumns = [] :=
      List.map_eq_nil_iff.mp (List.isEmpty_iff.mp hE)
    simp only [if_true]
    rw [SynState.mk.injEq]
    refine ⟨?_, rfl⟩
    rw [createdTable, finalTable, hcols]
    simp

lemma refresh_normalizes (env : Env) (config : Config) (s : SynState)
    (h1 : env.connect1Fails = false) (h2 : env.dropFails = false)
    (h3 : env.rmFails = false) (h4 : env.createFails = false)
    (h5 : env.connect2Fails = false) (h6 : env.statsQueryFails = false)
    (h7 : ∀ i, env.statCmdFails i = false)
    (hname : unqual config.external_table = unqual CONFIG.external_table) :
    refreshFinalState env config s = normalizedState env config s := by
  obtain ⟨hexc, hstate, hcreated⟩ := tryBody_ok_spec env config s h1 h2 h3 h4
  rw [refreshFinalState, refresh_external_table]
  rcases hT : refreshTryBody env config s with ⟨exc, s1, evs, created⟩
  rw [hT] at hexc hstate hcreated
  simp only at hexc hstate hcreated
  subst hexc hcreated hstate
  simp only [if_true]
  have hT0 : ∀ t ∈ s.tables.filter fun t => !(t.name == unqual config.external_table),
      (t.name == unqual config.external_table) = false := by
    intro t ht
    have hmem := (List.mem_filter.mp ht).2
    simp only [Bool.not_eq_true'] at hmem
    exact hmem
  rw [stats_ok_spec env config h5 h6 h7 hname _ hT0 _]
  rfl

lemma storeInsert_filter_idem (k v : String) (q : String × String → Bool)
    (Y : List (String × String)) :
    storeInsert k v ((storeInsert k v (Y.filter q)).filter q) =
      storeInsert k v (Y.filter q) := by
  simp only [storeInsert]
  congr 1
  have h1 : (((Y.filter q).filter fun kv => !(kv.1 == k)).filter q) =
      ((Y.filter q).filter fun kv => !(kv.1 == k)) :=
    List.filter_eq_self.mpr fun a ha =>
      (List.mem_filter.mp (List.mem_filter.mp ha).1).2
  by_cases hq : q (k, v) = true
  · rw [List.filter_cons_of_pos hq, List.filter_cons_of_neg (by simp)]
    rw [h1, filter_self_idem]
  · rw [List.filter_cons_of_neg hq]
    rw [h1, filter_self_idem]

lemma normalized_idem (env : Env) (config : Config) (s : SynState)
    (hname : unqual config.external_table = unqual CONFIG.external_table) :
    normalizedState env config (normalizedState env config s) =
      normalizedState env config s := by
  have hftname : ((finalTable env).name == unqual config.external_table) = true :=
    beq_iff_eq.mpr hname.symm
  simp only [normalizedState, SynState.mk.injEq]
  constructor
  · rw [List.filter_append, filter_self_idem]
    have hsing : ([finalTable env].filter
        fun t => !(t.name == unqual config.external_table)) = [] := by
      simp [hftname]
    rw [hsing, List.append_nil]
  · exact storeInsert_filter_idem env.createdLocation env.createdData _ s.storage

/-- C9: with identical config and a well-behaved environment, running the
refresh twice in a row yields exactly the final state of running it once, and
that state holds exactly one catalog entry with the target name: the freshly
created table carrying one statistics object per column, so no stale
statistics objects persist across runs. -/
theorem refresh_idempotent (env : Env) (config : Config) (s : SynState)
    (h1 : env.connect1Fails = false) (h2 : env.dropFails = false)
    (h3 : env.rmFails = false) (h4 : env.createFails = false)
    (h5 : env.connect2Fails = false) (h6 : env.statsQueryFails = false)
    (h7 : ∀ i, env.statCmdFails i = false)
    (hname : unqual config.external_table = unqual CONFIG.external_table) :
    refreshFinalState env config (refreshFinalState env config s) =
        refreshFinalState env config s ∧
      ((refreshFinalState env config s).tables.filter
          fun t => t.name == unqual config.external_table) = [finalTable env] := by
  have hn1 := refresh_normalizes env config s h1 h2 h3 h4 h5 h6 h7 hname
  have hn2 := refresh_normalizes env config (refreshFinalState env config s)
    h1 h2 h3 h4 h5 h6 h7 hname
  constructor
  · rw [hn2, hn1, normalized_idem env config s hname]
  · rw [hn1]
    show (((s.tables.filter fun t => !(t.name == unqual config.external_table)) ++
        [finalTable env]).filter fun t => t.name == unqual config.external_table) =
      [finalTable env]
    rw [List.filter_append, filter_not_self_nil]
    simp only [List.nil_append, List.filter_cons, List.filter_nil]
    have hfe : ((finalTable env).name == unqual config.external_table) = true :=
      beq_iff_eq.mpr hname.symm
    simp [hfe]

/-- C9 witness: on a concrete initial state and the notebook CONFIG, the
second refresh reproduces the final state of the first. -/
theorem refresh_idempotent_witness :
    refreshFinalState envAllOk CONFIG (refreshFinalState envAllOk CONFIG sT) =
      refreshFinalState envAllOk CONFIG sT :=
  (refresh_idempotent envAllOk CONFIG sT rfl rfl rfl rfl rfl rfl (fun _ => rfl) rfl).1

end ClaimC9

section ClaimC6

/-- C6: provided the first connection was acquired, on every execution path
(success, handled error, propagated error) the trace splits as l1 followed by
l2 where the first connection is released exactly once in l1 and never in l2,
no statistics work (no statistics connection, no statistics command) happens
in l1, l2 holds only statistics-phase events, and whenever the try block can
complete, the statistics phase opens its own fresh connection inside l2. -/
theorem refresh_connection_discipline (env : Env) (config : Config) (s : SynState)
    (h1 : env.connect1Fails = false) :
    ∃ l1 l2, (refresh_external_table env config s).2.2 = l1 ++ l2 ∧
      l1.count Ev.release1 = 1 ∧ l2.count Ev.release1 = 0 ∧
      Ev.connect2 ∉ l1 ∧ (∀ c b, Ev.statCmd c b ∉ l1) ∧
      (∀ e ∈ l2, isStatsEv e = true) ∧
      (env.dropFails = false → env.rmFails = false → env.createFails = false →
        Ev.connect2 ∈ l2) := by
  rcases hT : refreshTryBody env config s with ⟨exc, s1, evs, created⟩
  have hkinds : ∀ e ∈ evs, isTryEv e = true := by
    have h := tryBody_trace_kinds env config s
    rw [hT] at h
    exact h
  have hrel0 : evs.count Ev.release1 = 0 := count_zero_of_kind hkinds rfl
  have hc2 : Ev.connect2 ∉ evs := not_mem_of_kind hkinds rfl
  have hsc : ∀ c b, Ev.statCmd c b ∉ evs := fun c b => not_mem_of_kind hkinds rfl
  cases exc with
  | error e =>
      have htrace : (refresh_external_table env config s).2.2 =
          evs ++ [Ev.logErrorRefresh, Ev.release1, Ev.logRefreshDone] := by
        rw [refresh_external_table, hT]
        simp [h1]
      refine ⟨evs ++ [Ev.logErrorRefresh, Ev.release1, Ev.logRefreshDone], [],
        by rw [htrace, List.append_nil], ?_, rfl, ?_, ?_, by simp, ?_⟩
      · rw [List.count_append, hrel0]
        decide
      · simp [hc2]
      · intro c b
        simp [hsc c b]
      · intro hd hr hcF
        have hok := (tryBody_ok_spec env config s h1 hd hr hcF).1
        rw [hT] at hok
        simp at hok
  | ok u =>
      have hcreated : created = true := by
        have hiff := tryBody_ok_iff_created env config s
        rw [hT] at hiff
        simpa using hiff.mp rfl
      subst hcreated
      rcases hS : create_statistics_for_external_table env config s1 with ⟨o2, s2, evs2⟩
      have hsk : ∀ e ∈ evs2, isStatsEv e = true := by
        have h := stats_trace_kinds env config s1
        rw [hS] at h
        exact h
      have htrace : (refresh_external_table env config s).2.2 =
          (evs ++ [Ev.release1, Ev.logRefreshDone]) ++ evs2 := by
        rw [refresh_external_table, hT]
        simp [hS]
      refine ⟨evs ++ [Ev.release1, Ev.logRefreshDone], evs2, htrace, ?_,
        count_zero_of_kind hsk rfl, ?_, ?_, hsk, ?_⟩
      · rw [List.count_append, hrel0]
        decide
      · simp [hc2]
      · intro c b
        simp [hsc c b]
      · intro _ _ _
        have h := stats_trace_has_connect2 env config s1
        rw [hS] at h
        exact h

/-- C6 witness: the discipline at a concrete environment, config and state. -/
theorem refresh_connection_discipline_witness :
    ∃ l1 l2, (refresh_external_table envAllOk cfgT sT).2.2 = l1 ++ l2 ∧
      l1.count Ev.release1 = 1 ∧ l2.count Ev.release1 = 0 ∧
      Ev.connect2 ∉ l1 ∧ (∀ c b, Ev.statCmd c b ∉ l1) ∧
      (∀ e ∈ l2, isStatsEv e = true) ∧
      (envAllOk.dropFails = false → envAllOk.rmFails = false →
        envAllOk.createFails = false → Ev.connect2 ∈ l2) :=
  refresh_connection_discipline envAllOk cfgT sT rfl

end ClaimC6

section ClaimC7

/-- C7: every failure during connect, drop, storage-clean or create aborts the
run with the propagated error and no statistics work; the acquired connection
is released; and nothing is rolled back: in particular, with a pre-existing
table, a successful drop followed by a failed create leaves no catalog entry
with the target name, and the storage cleanup persists. -/
theorem refresh_errors_propagate_without_rollback (env : Env) (config : Config)
    (s : SynState) (hex : table_exists s config.external_table = true) :
    (env.connect1Fails = true →
      (refresh_external_table env config s).1 = Outcome.raised "ConnectionError" ∧
      Ev.connect2 ∉ (refresh_external_table env config s).2.2) ∧
    (env.connect1Fails = false → env.dropFails = true →
      (refresh_external_table env config s).1 = Outcome.raised "QueryError: DROP rejected" ∧
      Ev.release1 ∈ (refresh_external_table env config s).2.2 ∧
      Ev.connect2 ∉ (refresh_external_table env config s).2.2) ∧
    (env.connect1Fails = false → env.dropFails = false → env.rmFails = true →
      (refresh_external_table env config s).1 = Outcome.raised "StorageError" ∧
      Ev.release1 ∈ (refresh_external_table env config s).2.2 ∧
      Ev.connect2 ∉ (refresh_external_table env config s).2.2) ∧
    (env.connect1Fails = false → env.dropFails = false → env.rmFails = false →
      env.createFails = true →
      (refresh_external_table env config s).1 = Outcome.raised "QueryError: CETAS rejected" ∧
      Ev.release1 ∈ (refresh_external_table env config s).2.2 ∧
      Ev.connect2 ∉ (refresh_external_table env config s).2.2 ∧
      (∀ c b, Ev.statCmd c b ∉ (refresh_external_table env config s).2.2) ∧
      ((refresh_external_table env config s).2.1.tables.filter
          fun t => t.name == unqual config.external_table) = [] ∧
      (refresh_external_table env config s).2.1.storage =
        s.storage.filter fun kv =>
          !(strPrefixOf config.materialized_table_output_path kv.1)) := by
  refine ⟨?_, ?_, ?_, ?_⟩
  · intro h1
    simp only [refresh_external_table, refreshTryBody, refreshDropPhase, delete_adls_path,
      create_external_table, fs_rm]
    simp [h1]
  · intro h1 h2
    simp only [refresh_external_table, refreshTryBody, refreshDropPhase, delete_adls_path,
      create_external_table, fs_rm]
    simp [h1, h2, hex]
  · intro h1 h2 h3
    simp only [refresh_external_table, refreshTryBody, refreshDropPhase, delete_adls_path,
      create_external_table, fs_rm]
    simp [h1, h2, h3, hex]
  · intro h1 h2 h3 h4
    simp only [refresh_external_table, refreshTryBody, refreshDropPhase, delete_adls_path,
      create_external_table, fs_rm, drop_external_table]
    simp [h1, h2, h3, h4, hex, filter_not_self_nil]

/-- C7 witness: a concrete run in which the drop succeeded and the create
failed: the error propagates and the table is absent from the final catalog. -/
theorem refresh_errors_propagate_witness :
    (refresh_external_table envCreateFail cfgT sT).1 =
        Outcome.raised "QueryError: CETAS rejected" ∧
      ((refresh_external_table envCreateFail cfgT sT).2.1.tables.filter
          fun t => t.name == unqual cfgT.external_table) = [] := by
  have h := (refresh_errors_propagate_without_rollback envCreateFail cfgT sT
    (by decide)).2.2.2 rfl rfl rfl rfl
  exact ⟨h.1, h.2.2.2.2.1⟩

end ClaimC7

section ClaimC10

/-- C10: `create_external_table` always executes the module-level `cetas_sql`
string (the f-string interpolated once at definition time from CONFIG): its
behaviour is entirely independent of its config argument, so the
`location_folder` value it computes from the config is never used. -/
theorem create_executes_module_level_cetas_sql (env : Env) (s : SynState)
    (config1 config2 : Config) :
    create_external_table env config1 s = create_external_table env config2 s ∧
      (create_external_table env config1 s).2.2.head? = some (Ev.createCall cetas_sql) := by
  rw [create_external_table, create_external_table]
  cases h : env.createFails <;> simp

end ClaimC10

end CetasRefresh
